import Mathlib

/-!
Shallow embedding of the cluster failure-injection harness in
`smoketests/tests/replication.py` (SpacetimeDB): the `retry` helper, the
`get_int` text extractor, `DockerManager.list_containers`, and the
`Cluster` methods `get_db_id`, `get_all_replicas`, `get_leader_info`,
`wait_for_leader_change`, `ensure_leader_health`, `fail_leader`,
`restore_leader`.

Python exceptions are modelled by `Except PyError`.  External systems
(control-plane SQL query outputs, `docker compose ps` output, the
reducer-call outcomes) are inputs to the embedded functions: a
`ControlPlane` record holds the text each SQL query returns, and poll
loops receive a per-attempt environment.  `time.sleep` has no logical
effect; loops instead count their polls and sleeps so that claims about
"no sleep" / "delay between attempts" can be stated.
-/

set_option autoImplicit false

deriving instance DecidableEq for Except

/-- Python exception classes that the embedded code can raise.
`attributeError` models `re.search(...).group()` on a failed search
(`'NoneType' object has no attribute 'group'`), `indexError` a list
index out of range, `nameError` an undefined variable name hit while
evaluating an expression. -/
inductive PyError where
  | attributeError
  | indexError
  | valueError (msg : String)
  | nameError (nm : String)
  deriving DecidableEq

/-- `listStartsWith pat l` is true when `pat` is an initial segment of `l`. -/
def listStartsWith : List Char → List Char → Bool
  | [], _ => true
  | _ :: _, [] => false
  | p :: ps, c :: cs => p == c && listStartsWith ps cs

/-- `listContainsSub pat l`: `pat` occurs as a contiguous run inside `l`. -/
def listContainsSub (pat : List Char) : List Char → Bool
  | [] => listStartsWith pat []
  | c :: cs => listStartsWith pat (c :: cs) || listContainsSub pat cs

/-- Python's `needle in haystack` substring test. -/
def strContains (haystack needle : String) : Bool :=
  listContainsSub needle.toList haystack.toList

/-- Splits on `'\n'`; a trailing newline yields no trailing empty line and
the empty string yields no lines, as Python's `str.splitlines` does. -/
def splitlinesAux (cur : List Char) : List Char → List (List Char)
  | [] => if cur.isEmpty then [] else [cur.reverse]
  | c :: rest =>
    if c = '\n' then cur.reverse :: splitlinesAux [] rest
    else splitlinesAux (c :: cur) rest

/-- Python `text.splitlines()` (newline-only; the CLI output the harness
parses uses `'\n'`). -/
def pySplitlines (s : String) : List String :=
  (splitlinesAux [] s.toList).map String.mk

/-- Splitting on a single explicit separator character; like Python
`s.split(sep)` this keeps empty fields and maps `""` to `[""]`. -/
def splitOnCharAux (sep : Char) (cur : List Char) : List Char → List (List Char)
  | [] => [cur.reverse]
  | c :: rest =>
    if c = sep then cur.reverse :: splitOnCharAux sep [] rest
    else splitOnCharAux sep (c :: cur) rest

/-- Python `s.split(sep)` for a one-character separator. -/
def pySplitChar (s : String) (sep : Char) : List String :=
  (splitOnCharAux sep [] s.toList).map String.mk

/-- Python `s.strip()` (whitespace strip from both ends). -/
def pyStrip (s : String) : String :=
  String.mk (((s.toList.dropWhile Char.isWhitespace).reverse.dropWhile
    Char.isWhitespace).reverse)

/-- The first maximal run of decimal digits in the text, if any:
what `re.search(r'\d+', text)` matches. -/
def firstDigitRun : List Char → Option (List Char)
  | [] => none
  | c :: cs =>
    if c.isDigit then some (c :: cs.takeWhile Char.isDigit)
    else firstDigitRun cs

/-- Decimal value of a digit run. -/
def digitsToNat (l : List Char) : Nat :=
  l.foldl (fun acc c => acc * 10 + (c.toNat - 48)) 0

/-- `get_int(text)` from replication.py:
`int(re.search(r'\d+', text).group())`.  When the text holds no digit,
`re.search` returns `None` and `.group()` raises `AttributeError`. -/
def get_int (text : String) : Except PyError Nat :=
  match firstDigitRun text.toList with
  | some run => .ok (digitsToNat run)
  | none => .error .attributeError

/-- Python's `int(s)` builtin on a string cell: strips whitespace, then an
optional sign followed by digits; `none` models the `ValueError` raise.
(Digit-group underscores accepted by CPython are not modelled; the
harness's control-plane cells never contain them.) -/
def allDigitsVal (l : List Char) : Option Nat :=
  if l.isEmpty then none
  else if l.all Char.isDigit then some (digitsToNat l) else none

/-- Python `int(s)` for a text cell. -/
def pyInt (s : String) : Option Int :=
  match (pyStrip s).toList with
  | '-' :: rest => (allDigitsVal rest).map (fun n => -(n : Int))
  | '+' :: rest => (allDigitsVal rest).map (fun n => (n : Int))
  | l => (allDigitsVal l).map (fun n => (n : Int))

/-- A Docker container as parsed by `DockerManager.list_containers`. -/
structure DockerContainer where
  id : String
  name : String
  deriving DecidableEq

/-- Python `line.split(maxsplit=1)`: drop leading whitespace, take the
first whitespace-free token, then the remainder with its own leading
whitespace dropped; a remainder that is all whitespace yields no second
element, and an all-whitespace line yields `[]`. -/
def splitMax1 (line : String) : List String :=
  match line.toList.dropWhile Char.isWhitespace with
  | [] => []
  | c :: rest =>
    let tok := c :: rest.takeWhile (fun ch => !ch.isWhitespace)
    let after := (rest.dropWhile (fun ch => !ch.isWhitespace)).dropWhile
      Char.isWhitespace
    if after.isEmpty then [String.mk tok] else [String.mk tok, String.mk after]

/-- The loop body of `DockerManager.list_containers`: skip blank lines,
unpack each remaining line as `container_id, name = line.split(maxsplit=1)`
(raising `ValueError` when the line has a single token). -/
def parseContainers : List String → Except PyError (List DockerContainer)
  | [] => .ok []
  | line :: rest =>
    if (pyStrip line).isEmpty then parseContainers rest
    else
      match splitMax1 line with
      | [container_id, name] =>
        match parseContainers rest with
        | .error e => .error e
        | .ok cs => .ok (⟨container_id, name⟩ :: cs)
      | _ => .error (.valueError "not enough values to unpack")

/-- `DockerManager.list_containers`, as a function of the
`docker compose ps -a --format "{{.ID}} {{.Name}}"` output text. -/
def list_containers (psOut : String) : Except PyError (List DockerContainer) :=
  parseContainers (pySplitlines psOut)

/-- The text outputs of the control-plane SQL queries that
`Cluster.read_controldb` issues, indexed by the ids interpolated into
each query. -/
structure ControlPlane where
  /-- Output of `select id from database where database_identity=...`. -/
  dbIdOut : String
  /-- Output of `select id, node_id from replica where database_id=d`. -/
  replicasOut : Nat → String
  /-- Output of `select leader from replication_state where database_id=d`. -/
  leaderOut : Nat → String
  /-- Output of `select node_id from replica where id=l`. -/
  nodeOut : Nat → String
  /-- Output of `select network_addr from node where id=n`. -/
  addrOut : Nat → String

/-- `Cluster.get_db_id`. -/
def get_db_id (cp : ControlPlane) : Except PyError Nat :=
  get_int cp.dbIdOut

/-- The result record of `Cluster.get_leader_info`. -/
structure LeaderInfo where
  node_id : Nat
  hostname : String
  container_id : String
  deriving DecidableEq

/-- The hostname computation of `Cluster.get_leader_info`: the output must
have exactly 3 lines and its third line must contain `"(some ="`; then the
address is the part between the first pair of double quotes and the
hostname is its portion before the first `':'`.  Otherwise the hostname is
`""`.  A marker line without a `'"'` raises `IndexError` (`split('"')[1]`). -/
def computeHostname (lines : List String) : Except PyError String :=
  if lines.length = 3 then
    if strContains (lines.getD 2 "") "(some =" then
      match (pySplitChar (lines.getD 2 "") '"').get? 1 with
      | some address => .ok ((pySplitChar address ':').headD "")
      | none => .error .indexError
    else .ok ""
  else .ok ""

/-- The container lookup of `Cluster.get_leader_info`: the id of the first
container whose name has the hostname as a substring, else `""`. -/
def findContainerId (hostname : String) : List DockerContainer → String
  | [] => ""
  | c :: rest =>
    if strContains c.name hostname then c.id else findContainerId hostname rest

/-- `Cluster.get_leader_info`: three sequential `get_int` reads
(database id, leader replica id, leader node id), then the hostname parse
and the container lookup.  Each `get_int` raise propagates. -/
def get_leader_info (cp : ControlPlane) (containers : List DockerContainer) :
    Except PyError LeaderInfo :=
  match get_db_id cp with
  | .error e => .error e
  | .ok database_id =>
    match get_int (cp.leaderOut database_id) with
    | .error e => .error e
    | .ok leader_id =>
      match get_int (cp.nodeOut leader_id) with
      | .error e => .error e
      | .ok leader_node_id =>
        match computeHostname (pySplitlines (cp.addrOut leader_node_id)) with
        | .error e => .error e
        | .ok hostname =>
          .ok ⟨leader_node_id, hostname, findContainerId hostname containers⟩

/-- A replica row of `Cluster.get_all_replicas`. -/
structure Replica where
  replica_id : Int
  node_id : Int
  deriving DecidableEq

/-- One data row of `Cluster.get_all_replicas`:
`replica_id, node_id = line.split('|')` (raising `ValueError` unless the
split has exactly two cells), then `int(...)` on each string cell. -/
def parseReplicaLine (line : String) : Except PyError Replica :=
  match pySplitChar line '|' with
  | [replica_id, node_id] =>
    match pyInt replica_id, pyInt node_id with
    | some x, some y => .ok ⟨x, y⟩
    | _, _ => .error (.valueError "invalid literal for int")
  | _ => .error (.valueError "values to unpack")

/-- The row loop of `Cluster.get_all_replicas`; a raise on any line
propagates and discards the rows accumulated so far. -/
def parseReplicaLines : List String → Except PyError (List Replica)
  | [] => .ok []
  | line :: rest =>
    match parseReplicaLine line with
    | .error e => .error e
    | .ok r =>
      match parseReplicaLines rest with
      | .error e => .error e
      | .ok rs => .ok (r :: rs)

/-- `Cluster.get_all_replicas`: resolve the database id, then parse every
line after the second (header and separator) of the replica query output. -/
def get_all_replicas (cp : ControlPlane) : Except PyError (List Replica) :=
  match get_db_id cp with
  | .error e => .error e
  | .ok database_id =>
    parseReplicaLines ((pySplitlines (cp.replicasOut database_id)).drop 2)

/-- What `retry` returned: the wrapped call's value, the `False` sentinel
after exhaustion, or Python's implicit `None` when `max_retries < 1`
makes the loop body never run. -/
inductive RetryOutcome (α : Type) where
  | ok (a : α)
  | sentinelFalse
  | pyNone
  deriving DecidableEq

/-- Observable trace of one `retry` call: its outcome, how many times the
wrapped function was invoked, how many `time.sleep(retry_delay)` calls ran
(one between consecutive attempts, none after the last), and how many
"Attempt _ failed ... Retrying" log lines were printed. -/
structure RetryTrace (α : Type) where
  result : RetryOutcome α
  calls : Nat
  sleeps : Nat
  failLogs : Nat
  deriving DecidableEq

/-- The `for attempt in range(1, max_retries + 1)` loop of `retry`,
starting at attempt number `attempt` with `remaining` iterations left.
The wrapped zero-argument function is modelled by the outcome `f k` of its
`k`-th invocation (1-based).  On success the value is returned at once; on
an exception the loop sleeps and continues unless this was the last
attempt, in which case it returns `False`. -/
def retryFrom {α : Type} (f : Nat → Except PyError α) : Nat → Nat → RetryTrace α
  | _, 0 => ⟨.pyNone, 0, 0, 0⟩
  | attempt, remaining + 1 =>
    match f attempt with
    | .ok a => ⟨.ok a, 1, 0, 0⟩
    | .error _ =>
      if remaining = 0 then ⟨.sentinelFalse, 1, 0, 0⟩
      else
        let t := retryFrom f (attempt + 1) remaining
        ⟨t.result, t.calls + 1, t.sleeps + 1, t.failLogs + 1⟩

/-- `retry(func, max_retries, retry_delay)` from replication.py.  It
catches every exception of `func`, so it never raises; `retry_delay` only
feeds `time.sleep` and has no further logical effect. -/
def retry {α : Type} (f : Nat → Except PyError α) (max_retries : Nat)
    (retry_delay : Nat) : RetryTrace α :=
  retryFrom f 1 max_retries

/-- `Cluster.ensure_leader_health(id)`: after the settle sleep it performs
the write `self.test.call("start", id, 1)` through `retry` (whose outcome,
success or swallowed failure, is discarded), then directly reads the
counter table; `add_table` is the text that read returned.  When `str(id)`
is not a substring of that text the source executes
`raise ValueError(f"Could not find {rnd} in counter table")`, but `rnd` is
an unbound name, so evaluating the message raises
`NameError: name 'rnd' is not defined` before any `ValueError` exists. -/
def ensure_leader_health (callStart : Nat → Except PyError Unit) (id : Nat)
    (add_table : String) : Except PyError Unit :=
  let _writeOutcome := retry callStart 3 2
  if ¬ strContains add_table (Nat.repr id) then .error (.nameError "rnd")
  else .ok ()

/-- Result of one `wait_for_leader_change` call: the returned node id, the
`None` return after the attempt budget, or an exception propagating out of
`get_leader_info`. -/
inductive WaitResult where
  | found (node : Nat)
  | timeout
  | errored
  deriving DecidableEq

/-- Observable trace of one `wait_for_leader_change` call: its result,
the number of `get_leader_info` polls performed and the number of
`time.sleep(delay)` calls executed. -/
structure WaitTrace where
  result : WaitResult
  polls : Nat
  sleeps : Nat
  deriving DecidableEq

/-- The leader observed by poll number `i`: the cluster state at each poll
is an environment `env i` giving the control-plane outputs and the
container listing current at that moment. -/
def pollLeader (env : Nat → ControlPlane × List DockerContainer) (i : Nat) :
    Except PyError LeaderInfo :=
  get_leader_info (env i).1 (env i).2

/-- The `for _ in range(max_attempts)` loop of
`Cluster.wait_for_leader_change`, at poll index `i` with `fuel` iterations
left.  Each iteration polls, returns the observed node id when it differs
from `previous` (Python `current_leader != previous_leader_node`; against
`None` every int differs), and otherwise sleeps and continues; the loop
falls through to `return None`. An exception in a poll propagates. -/
def waitFrom (env : Nat → ControlPlane × List DockerContainer)
    (previous : Option Nat) : Nat → Nat → WaitTrace
  | _, 0 => ⟨.timeout, 0, 0⟩
  | i, fuel + 1 =>
    match pollLeader env i with
    | .error _ => ⟨.errored, 1, 0⟩
    | .ok info =>
      if some info.node_id ≠ previous then ⟨.found info.node_id, 1, 0⟩
      else
        let t := waitFrom env previous (i + 1) fuel
        ⟨t.result, t.polls + 1, t.sleeps + 1⟩

/-- `Cluster.wait_for_leader_change(previous_leader_node, max_attempts,
delay)`; `previous = none` models passing Python `None`.  `delay` only
feeds `time.sleep`; the trace records how often it ran. -/
def wait_for_leader_change (env : Nat → ControlPlane × List DockerContainer)
    (previous : Option Nat) (max_attempts : Nat) (delay : Nat) : WaitTrace :=
  waitFrom env previous 0 max_attempts

/-- A destructive or restorative Docker operation performed by the
harness. -/
inductive DockerAction where
  | kill (container_id : String)
  | disconnect (container_id : String)
  | start (container_id : String)
  | connect (container_id : String)
  deriving DecidableEq

/-- `Cluster.fail_leader(action)`: resolve the leader, raise `ValueError`
when its container id is empty (`if not container_id`), then perform the
named action or raise `ValueError` for an unknown action.  The second
component lists the Docker operations actually performed, in order. -/
def fail_leader (cp : ControlPlane) (containers : List DockerContainer)
    (action : String) : Except PyError String × List DockerAction :=
  match get_leader_info cp containers with
  | .error e => (.error e, [])
  | .ok info =>
    if info.container_id = "" then
      (.error (.valueError "Could not find leader container"), [])
    else if action = "kill" then
      (.ok info.container_id, [.kill info.container_id])
    else if action = "disconnect" then
      (.ok info.container_id, [.disconnect info.container_id])
    else
      (.error (.valueError (String.append "Unknown action: " action)), [])

/-- `Cluster.restore_leader(container_id, action)`. -/
def restore_leader (container_id : String) (action : String) :
    Except PyError Unit × List DockerAction :=
  if action = "start" then (.ok (), [.start container_id])
  else if action = "connect" then (.ok (), [.connect container_id])
  else (.error (.valueError (String.append "Unknown action: " action)), [])

/-! ## Helper lemmas about the retry loop -/

/-- When every attempt from `a` through the last of `m` remaining raises,
the loop returns the `False` sentinel after `m` calls with a sleep between
each consecutive pair of attempts. -/
theorem retryFrom_allFail {α : Type} (f : Nat → Except PyError α) :
    ∀ m a, 1 ≤ m → (∀ k, a ≤ k → k < a + m → ∃ e, f k = .error e) →
    retryFrom f a m = ⟨.sentinelFalse, m, m - 1, m - 1⟩ := by
  intro m
  induction m with
  | zero => intro a h; omega
  | succ m ih =>
    intro a _ hfail
    obtain ⟨e, he⟩ := hfail a (Nat.le_refl a) (by omega)
    by_cases hm : m = 0
    · subst hm
      simp [retryFrom, he]
    · have ht := ih (a + 1) (by omega) (fun k hk1 hk2 => hfail k (by omega) (by omega))
      simp only [retryFrom, he, if_neg hm, ht]
      simp only [RetryTrace.mk.injEq, eq_self_iff_true, true_and]
      omega

/-- When attempts `a, ..., a + p - 1` raise and attempt `a + p` succeeds
within the budget, the loop returns the success value after `p + 1` calls. -/
theorem retryFrom_firstOk {α : Type} (f : Nat → Except PyError α) (v : α) :
    ∀ p a rem, p < rem → (∀ j, a ≤ j → j < a + p → ∃ e, f j = .error e) →
    f (a + p) = .ok v →
    retryFrom f a rem = ⟨.ok v, p + 1, p, p⟩ := by
  intro p
  induction p with
  | zero =>
    intro a rem hrem _ hok
    obtain ⟨r, rfl⟩ : ∃ r, rem = r + 1 := ⟨rem - 1, by omega⟩
    rw [Nat.add_zero] at hok
    simp [retryFrom, hok]
  | succ p ih =>
    intro a rem hrem hfail hok
    obtain ⟨r, rfl⟩ : ∃ r, rem = r + 1 := ⟨rem - 1, by omega⟩
    obtain ⟨e, he⟩ := hfail a (Nat.le_refl a) (by omega)
    have hr : r ≠ 0 := by omega
    have ht := ih (a + 1) r (by omega)
      (fun j hj1 hj2 => hfail j (by omega) (by omega))
      (by rwa [show a + 1 + p = a + (p + 1) by omega])
    simp only [retryFrom, he, if_neg hr, ht]

/-- C6: when every one of the `n ≥ 1` attempts of `retry(f, n, d)` raises,
`retry` returns the sentinel `False` (it never re-raises: its result type
has no exception case, matching the `except Exception` that swallows every
raise), invokes `f` exactly `n` times, and sleeps exactly `n - 1` times —
once between each pair of consecutive attempts and never after the last
attempt; with `n = 1` there is one call and no sleep at all. -/
theorem claim_C6 {α : Type} (f : Nat → Except PyError α) (n d : Nat)
    (hn : 1 ≤ n) (hfail : ∀ k, 1 ≤ k → k ≤ n → ∃ e, f k = .error e) :
    retry f n d = ⟨.sentinelFalse, n, n - 1, n - 1⟩ :=
  retryFrom_allFail f n 1 hn (fun k hk1 hk2 => hfail k hk1 (by omega))

/-- C6 witness: a function raising at every attempt, run with
`max_retries = 3` and with `max_retries = 1`. -/
def f6 : Nat → Except PyError Nat := fun _ => .error (.valueError "boom")

theorem claim_C6_witness :
    retry f6 3 0 = ⟨.sentinelFalse, 3, 2, 2⟩
    ∧ retry f6 1 5 = ⟨.sentinelFalse, 1, 0, 0⟩ :=
  ⟨claim_C6 f6 3 0 (by omega) (fun k h1 h2 => ⟨.valueError "boom", rfl⟩),
   claim_C6 f6 1 5 (by omega) (fun k h1 h2 => ⟨.valueError "boom", rfl⟩)⟩

/-- C7: when the `k`-th attempt (`1 ≤ k ≤ n`) is the first that does not
raise, `retry(f, n, d)` returns that attempt's value, invokes `f` exactly
`k` times (no further retries), and prints exactly `k - 1` failed-attempt
log lines; with `n = 3` and an `f` failing twice then succeeding that is
the success value after 3 calls and exactly 2 logged failures. -/
theorem claim_C7 {α : Type} (f : Nat → Except PyError α) (v : α) (k n d : Nat)
    (hk1 : 1 ≤ k) (hkn : k ≤ n)
    (hbefore : ∀ j, 1 ≤ j → j < k → ∃ e, f j = .error e)
    (hok : f k = .ok v) :
    retry f n d = ⟨.ok v, k, k - 1, k - 1⟩ := by
  have h := retryFrom_firstOk f v (k - 1) 1 n (by omega)
    (fun j hj1 hj2 => hbefore j hj1 (by omega))
    (by rwa [show 1 + (k - 1) = k by omega])
  rw [retry, h]
  simp only [RetryTrace.mk.injEq, eq_self_iff_true, true_and, and_true]
  omega

/-- C7 witness: `f` fails at attempts 1 and 2 and succeeds at attempt 3,
run with `max_retries = 3` and `delay = 0`. -/
def f7 : Nat → Except PyError Nat :=
  fun j => if j < 3 then .error (.valueError "boom") else .ok 42

theorem claim_C7_witness : retry f7 3 0 = ⟨.ok 42, 3, 2, 2⟩ :=
  claim_C7 f7 42 3 3 0 (by omega) (by omega)
    (fun j hj1 hj2 => ⟨.valueError "boom", by simp [f7, hj2]⟩)
    (by simp [f7])

/-! ## Helper lemmas about the polling loop -/

/-- A poll observing a leader that differs from `previous` makes the loop
return that node id at once: one poll, no sleep. -/
theorem waitFrom_found (env : Nat → ControlPlane × List DockerContainer)
    (prev : Option Nat) (i fuel : Nat) (info : LeaderInfo)
    (hfuel : 0 < fuel) (hok : pollLeader env i = .ok info)
    (hne : some info.node_id ≠ prev) :
    waitFrom env prev i fuel = ⟨.found info.node_id, 1, 0⟩ := by
  obtain ⟨g, rfl⟩ : ∃ g, fuel = g + 1 := ⟨fuel - 1, by omega⟩
  simp [waitFrom, hok, hne]

/-- A poll raising an exception aborts the loop at once: the exception
propagates after that one poll and before any further sleep. -/
theorem waitFrom_err (env : Nat → ControlPlane × List DockerContainer)
    (prev : Option Nat) (i fuel : Nat) (e : PyError)
    (hfuel : 0 < fuel) (herr : pollLeader env i = .error e) :
    waitFrom env prev i fuel = ⟨.errored, 1, 0⟩ := by
  obtain ⟨g, rfl⟩ : ∃ g, fuel = g + 1 := ⟨fuel - 1, by omega⟩
  simp [waitFrom, herr]

/-- A poll observing the previous leader again makes the loop sleep once
and continue with the next attempt. -/
theorem waitFrom_stay (env : Nat → ControlPlane × List DockerContainer)
    (prev : Option Nat) (i fuel : Nat) (info : LeaderInfo)
    (hok : pollLeader env i = .ok info) (heq : prev = some info.node_id) :
    waitFrom env prev i (fuel + 1) =
      ⟨(waitFrom env prev (i + 1) fuel).result,
       (waitFrom env prev (i + 1) fuel).polls + 1,
       (waitFrom env prev (i + 1) fuel).sleeps + 1⟩ := by
  have hcond : ¬ (some info.node_id ≠ prev) := by rw [heq]; simp
  simp [waitFrom, hok, hcond]

/-- When every one of the `fuel` remaining polls observes the previous
leader, the loop exhausts its budget: `fuel` polls, `fuel` sleeps, `None`. -/
theorem waitFrom_timeout (env : Nat → ControlPlane × List DockerContainer)
    (prev : Option Nat) :
    ∀ fuel i,
    (∀ j, j < fuel → ∃ info, pollLeader env (i + j) = .ok info ∧
      prev = some info.node_id) →
    waitFrom env prev i fuel = ⟨.timeout, fuel, fuel⟩ := by
  intro fuel
  induction fuel with
  | zero => intro i _; rfl
  | succ fuel ih =>
    intro i h
    obtain ⟨info, hok, heq⟩ := h 0 (by omega)
    rw [Nat.add_zero] at hok
    rw [waitFrom_stay env prev i fuel info hok heq, ih (i + 1) (fun j hj => by
      have hh := h (j + 1) (by omega)
      rwa [show i + (j + 1) = i + 1 + j by omega] at hh)]

/-- When the polls before index `k` all observe the previous leader and
poll `k` (within the budget) observes a different one, the loop returns
that node id after `k + 1` polls and `k` sleeps. -/
theorem waitFrom_found_at (env : Nat → ControlPlane × List DockerContainer)
    (prev : Option Nat) (infok : LeaderInfo) :
    ∀ k i fuel, k < fuel →
    (∀ j, j < k → ∃ info, pollLeader env (i + j) = .ok info ∧
      prev = some info.node_id) →
    pollLeader env (i + k) = .ok infok → some infok.node_id ≠ prev →
    waitFrom env prev i fuel = ⟨.found infok.node_id, k + 1, k⟩ := by
  intro k
  induction k with
  | zero =>
    intro i fuel hf _ hok hne
    rw [Nat.add_zero] at hok
    exact waitFrom_found env prev i fuel infok (by omega) hok hne
  | succ k ih =>
    intro i fuel hf h hok hne
    obtain ⟨g, rfl⟩ : ∃ g, fuel = g + 1 := ⟨fuel - 1, by omega⟩
    obtain ⟨info, hok0, heq0⟩ := h 0 (by omega)
    rw [Nat.add_zero] at hok0
    rw [waitFrom_stay env prev i g info hok0 heq0, ih (i + 1) g (by omega)
      (fun j hj => by
        have hh := h (j + 1) (by omega)
        rwa [show i + (j + 1) = i + 1 + j by omega] at hh)
      (by rwa [show i + (k + 1) = i + 1 + k by omega] at hok) hne]

/-- When the polls before index `k` all observe the previous leader and
poll `k` (within the budget) raises, the loop aborts there: `k + 1` polls,
`k` sleeps, and the exception propagates. -/
theorem waitFrom_err_at (env : Nat → ControlPlane × List DockerContainer)
    (prev : Option Nat) (e : PyError) :
    ∀ k i fuel, k < fuel →
    (∀ j, j < k → ∃ info, pollLeader env (i + j) = .ok info ∧
      prev = some info.node_id) →
    pollLeader env (i + k) = .error e →
    waitFrom env prev i fuel = ⟨.errored, k + 1, k⟩ := by
  intro k
  induction k with
  | zero =>
    intro i fuel hf _ herr
    rw [Nat.add_zero] at herr
    exact waitFrom_err env prev i fuel e (by omega) herr
  | succ k ih =>
    intro i fuel hf h herr
    obtain ⟨g, rfl⟩ : ∃ g, fuel = g + 1 := ⟨fuel - 1, by omega⟩
    obtain ⟨info, hok0, heq0⟩ := h 0 (by omega)
    rw [Nat.add_zero] at hok0
    rw [waitFrom_stay env prev i g info hok0 heq0, ih (i + 1) g (by omega)
      (fun j hj => by
        have hh := h (j + 1) (by omega)
        rwa [show i + (j + 1) = i + 1 + j by omega] at hh)
      (by rwa [show i + (k + 1) = i + 1 + k by omega] at herr)]

/-- Whatever the polls observe, a node id the loop returns always differs
from `previous`. -/
theorem waitFrom_found_inv (env : Nat → ControlPlane × List DockerContainer)
    (prev : Option Nat) :
    ∀ fuel i v, (waitFrom env prev i fuel).result = .found v →
    some v ≠ prev := by
  intro fuel
  induction fuel with
  | zero => intro i v h; simp [waitFrom] at h
  | succ fuel ih =>
    intro i v h
    cases hpoll : pollLeader env i with
    | error e => rw [waitFrom_err env prev i (fuel + 1) e (by omega) hpoll] at h; simp at h
    | ok info =>
      by_cases hne : some info.node_id ≠ prev
      · rw [waitFrom_found env prev i (fuel + 1) info (by omega) hpoll hne] at h
        simp only [WaitResult.found.injEq] at h
        rwa [← h]
      · have heq : prev = some info.node_id := by
          rcases Decidable.not_not.mp hne with h2
          exact h2.symm
        rw [waitFrom_stay env prev i fuel info hpoll heq] at h
        exact ih (i + 1) v h

/-- C2: when every one of the `n` polls observes a leader (`f i` at poll
`i`), `wait_for_leader_change(previous, n, d)` (1) returns `None` after
the whole budget when every observed node id equals `previous`, (2)
returns the first observed node id that differs from `previous`, at the
poll where it first differs, (3) only returns node ids different from
`previous`, and (4) with `previous = None` returns the very first leader
observed. -/
theorem claim_C2 (env : Nat → ControlPlane × List DockerContainer)
    (prev : Option Nat) (n d : Nat) (f : Nat → LeaderInfo)
    (hall : ∀ i, i < n → pollLeader env i = .ok (f i)) :
    ((∀ i, i < n → prev = some (f i).node_id) →
      wait_for_leader_change env prev n d = ⟨.timeout, n, n⟩)
    ∧ (∀ k, k < n → (∀ i, i < k → prev = some (f i).node_id) →
        prev ≠ some (f k).node_id →
        wait_for_leader_change env prev n d = ⟨.found (f k).node_id, k + 1, k⟩)
    ∧ (∀ v, (wait_for_leader_change env prev n d).result = .found v →
        some v ≠ prev)
    ∧ (prev = none → 1 ≤ n →
        wait_for_leader_change env prev n d = ⟨.found (f 0).node_id, 1, 0⟩) := by
  refine ⟨?_, ?_, ?_, ?_⟩
  · intro h
    exact waitFrom_timeout env prev n 0
      (fun j hj => ⟨f j, by rw [Nat.zero_add]; exact hall j hj, h j hj⟩)
  · intro k hk hbefore hne
    exact waitFrom_found_at env prev (f k) k 0 n hk
      (fun j hj => ⟨f j, by rw [Nat.zero_add]; exact hall j (by omega), hbefore j hj⟩)
      (by rw [Nat.zero_add]; exact hall k hk)
      (fun hc => hne hc.symm)
  · exact fun v h => waitFrom_found_inv env prev n 0 v h
  · intro hprev hn
    subst hprev
    exact waitFrom_found env none 0 n (f 0) (by omega)
      (hall 0 (by omega)) (by simp)

/-- A control plane on which `get_leader_info` always succeeds with node
id 4 and empty hostname: database id 1, leader replica 3, node 4, and an
address query output with no rows. -/
def cpW : ControlPlane :=
  { dbIdOut := "1", replicasOut := fun _ => "",
    leaderOut := fun _ => "3", nodeOut := fun _ => "4",
    addrOut := fun _ => "" }

/-- A cluster whose every poll sees `cpW` and no containers. -/
def envW : Nat → ControlPlane × List DockerContainer := fun _ => (cpW, [])

theorem claim_C2_witness :
    wait_for_leader_change envW none 1 0 = ⟨.found 4, 1, 0⟩ :=
  (claim_C2 envW none 1 0 (fun _ => ⟨4, "", ""⟩) (fun i hi => rfl)).2.2.2
    rfl (by omega)

/-- C9: `wait_for_leader_change` with `max_attempts = 0` performs no poll
and no sleep and returns `None` at once; and when the very first poll
already observes a node id different from `previous`, it returns that id
after exactly one poll and zero sleeps. -/
theorem claim_C9 (env : Nat → ControlPlane × List DockerContainer)
    (prev : Option Nat) (d : Nat) :
    wait_for_leader_change env prev 0 d = ⟨.timeout, 0, 0⟩
    ∧ (∀ info n, pollLeader env 0 = .ok info → some info.node_id ≠ prev →
        1 ≤ n →
        wait_for_leader_change env prev n d = ⟨.found info.node_id, 1, 0⟩) :=
  ⟨rfl, fun info n hok hne hn =>
    waitFrom_found env prev 0 n info (by omega) hok hne⟩

theorem claim_C9_witness :
    wait_for_leader_change envW (some 1) 0 7 = ⟨.timeout, 0, 0⟩
    ∧ wait_for_leader_change envW (some 1) 3 7 = ⟨.found 4, 1, 0⟩ :=
  ⟨(claim_C9 envW (some 1) 7).1,
   (claim_C9 envW (some 1) 7).2 ⟨4, "", ""⟩ 3 rfl (by decide) (by omega)⟩

/-- A control plane whose leader query output has a header and separator
but no data row (no digits anywhere), as during an election with no
current leader. -/
def cpNoLeader : ControlPlane :=
  { dbIdOut := "5", replicasOut := fun _ => "",
    leaderOut := fun _ => " leader \n---------", nodeOut := fun _ => "",
    addrOut := fun _ => "" }

/-- A control plane observing leader replica 7 on node 2. -/
def cpLeader2 : ControlPlane :=
  { dbIdOut := "5", replicasOut := fun _ => "",
    leaderOut := fun _ => " leader \n---------\n 7 ",
    nodeOut := fun _ => " node_id \n---------\n 2 ",
    addrOut := fun _ => "" }

/-- A cluster whose first poll finds no leader and whose later polls see
node 2 as leader. -/
def env3 : Nat → ControlPlane × List DockerContainer :=
  fun i => if i = 0 then (cpNoLeader, []) else (cpLeader2, [])

/-- C3 counterexample: with previous leader node 1, a first poll that
finds no leader (zero data rows) and a second poll that would observe the
new leader node 2, the call aborts with the propagated exception after
one poll — it neither keeps polling to return the new leader nor runs the
budget out to return `None`, contrary to the claim. -/
theorem claim_C3_cex :
    wait_for_leader_change env3 (some 1) 2 0 = ⟨.errored, 1, 0⟩
    ∧ (wait_for_leader_change env3 (some 1) 2 0).result ≠ .found 2
    ∧ (wait_for_leader_change env3 (some 1) 2 0).result ≠ .timeout := by
  decide

/-- C3 amended: an iteration of `wait_for_leader_change` in which no
leader is found (the leader query output has zero data rows, hence no
digits, so `get_int` raises `AttributeError`) is NOT treated as "leader
still old": the exception propagates out of the loop, aborting the call
right there — after the polls that looped, that one poll and no further
sleep — instead of polling on until the budget returns `None`. -/
theorem claim_C3 (env : Nat → ControlPlane × List DockerContainer)
    (prev : Option Nat) (n d i : Nat) (e : PyError) (hi : i < n)
    (hstay : ∀ j, j < i → ∃ info, pollLeader env j = .ok info ∧
      prev = some info.node_id)
    (herr : pollLeader env i = .error e) :
    wait_for_leader_change env prev n d = ⟨.errored, i + 1, i⟩ :=
  waitFrom_err_at env prev e i 0 n hi
    (fun j hj => by rw [Nat.zero_add]; exact hstay j hj)
    (by rw [Nat.zero_add]; exact herr)

theorem claim_C3_witness :
    wait_for_leader_change env3 (some 1) 2 0 = ⟨.errored, 1, 0⟩ :=
  claim_C3 env3 (some 1) 2 0 0 .attributeError (by omega)
    (fun j hj => absurd hj (by omega)) rfl

/-- C4 counterexample: a control plane whose leader query returns no rows
makes `get_leader_info` fail with the low-level `AttributeError` coming
out of `get_int`'s regex match, not with an application error carrying a
"no current leader" message. -/
theorem claim_C4_cex :
    get_leader_info cpNoLeader [] = .error .attributeError
    ∧ get_leader_info cpNoLeader [] ≠ .error (.valueError "no current leader") := by
  decide

/-- C4 amended: when the leader-replica-id query or the node-id query
returns no rows (its output holds no digits), `get_leader_info` does not
return normally, but it fails with the unrelated low-level
`AttributeError` raised by `get_int`'s failed regex match — there is no
explicit "no current leader" application error anywhere; and when the
third step (the network-address query) returns no rows (fewer than 3
output lines), the call does not fail at all: it returns normally with an
empty hostname. -/
theorem claim_C4 (cp : ControlPlane) (cs : List DockerContainer) :
    (∀ dbId, get_db_id cp = .ok dbId →
      get_int (cp.leaderOut dbId) = .error .attributeError →
      get_leader_info cp cs = .error .attributeError)
    ∧ (∀ dbId leaderId, get_db_id cp = .ok dbId →
        get_int (cp.leaderOut dbId) = .ok leaderId →
        get_int (cp.nodeOut leaderId) = .error .attributeError →
        get_leader_info cp cs = .error .attributeError)
    ∧ (∀ dbId leaderId nodeId, get_db_id cp = .ok dbId →
        get_int (cp.leaderOut dbId) = .ok leaderId →
        get_int (cp.nodeOut leaderId) = .ok nodeId →
        (pySplitlines (cp.addrOut nodeId)).length ≠ 3 →
        get_leader_info cp cs = .ok ⟨nodeId, "", findContainerId "" cs⟩) := by
  refine ⟨?_, ?_, ?_⟩
  · intro dbId h1 h2
    simp [get_leader_info, h1, h2]
  · intro dbId leaderId h1 h2 h3
    simp [get_leader_info, h1, h2, h3]
  · intro dbId leaderId nodeId h1 h2 h3 h4
    simp [get_leader_info, h1, h2, h3, computeHostname, h4]

theorem claim_C4_witness :
    get_leader_info cpNoLeader [] = .error .attributeError :=
  (claim_C4 cpNoLeader []).1 5 rfl rfl

/-! ## Helper lemmas about container parsing and the hostname fallback -/

/-- The empty needle is a substring of every string: Python's
`"" in s` is always true. -/
theorem strContains_empty (s : String) : strContains s "" = true := by
  unfold strContains
  cases s.toList with
  | nil => rfl
  | cons c cs => simp [listContainsSub, listStartsWith]

/-- With an empty hostname the container scan matches the very first
container and returns its id. -/
theorem findContainerId_empty (c : DockerContainer) (rest : List DockerContainer) :
    findContainerId "" (c :: rest) = c.id := by
  simp [findContainerId, strContains_empty]

/-- Whenever the address output does not consist of exactly 3 lines whose
third line carries the `"(some ="` marker, the computed hostname is `""`. -/
theorem computeHostname_not3 (lines : List String)
    (h : ¬ (lines.length = 3 ∧ strContains (lines.getD 2 "") "(some =" = true)) :
    computeHostname lines = .ok "" := by
  unfold computeHostname
  by_cases h3 : lines.length = 3
  · rw [if_pos h3, if_neg (fun hc => h ⟨h3, hc⟩)]
  · rw [if_neg h3]

/-- The first cell of a successful `split(maxsplit=1)` into two parts is a
nonempty token. -/
theorem splitMax1_fst_ne (line a b : String) (h : splitMax1 line = [a, b]) :
    a ≠ "" := by
  unfold splitMax1 at h
  cases hdrop : line.toList.dropWhile Char.isWhitespace with
  | nil => rw [hdrop] at h; simp at h
  | cons c rest =>
    rw [hdrop] at h
    simp only at h
    by_cases hafter :
        ((rest.dropWhile (fun ch => !ch.isWhitespace)).dropWhile
          Char.isWhitespace).isEmpty
    · rw [if_pos hafter] at h; simp at h
    · rw [if_neg hafter] at h
      have ha : a = String.mk (c :: rest.takeWhile (fun ch => !ch.isWhitespace)) :=
        (List.cons.inj h).1.symm
      intro hcontra
      rw [ha] at hcontra
      have : (c :: rest.takeWhile (fun ch => !ch.isWhitespace)) = [] :=
        congrArg String.data hcontra
      exact List.noConfusion this

/-- Every container id parsed by `list_containers` is a nonempty string
(each comes from the first token of a non-blank `ps` output line). -/
theorem parseContainers_id_ne :
    ∀ (ls : List String) (cs : List DockerContainer),
    parseContainers ls = .ok cs → ∀ c ∈ cs, c.id ≠ "" := by
  intro ls
  induction ls with
  | nil =>
    intro cs h c hc
    simp only [parseContainers, Except.ok.injEq] at h
    subst h
    simp at hc
  | cons line rest ih =>
    intro cs h c hc
    by_cases hblank : (pyStrip line).isEmpty
    · rw [parseContainers, if_pos hblank] at h
      exact ih cs h c hc
    · rw [parseContainers, if_neg hblank] at h
      rcases hsp : splitMax1 line with _ | ⟨x, _ | ⟨y, _ | _⟩⟩ <;> rw [hsp] at h
      · simp at h
      · simp at h
      · rcases hrest : parseContainers rest with e | cs' <;> rw [hrest] at h
        · simp at h
        · simp only [Except.ok.injEq] at h
          subst h
          rcases List.mem_cons.mp hc with hc1 | hc2
          · subst hc1
            exact splitMax1_fst_ne line x y hsp
          · exact ih cs' hrest c hc2
      · simp at h

/-- C5: when the network-address query output does not consist of exactly
3 lines whose data row contains the `"(some ="` marker, the hostname
`get_leader_info` computes is `""`; the empty hostname is a substring of
every container name, so the container scan stops at the first listed
container and returns its id; consequently a following `fail_leader`
does not raise "Could not find leader container" and performs its
destructive action (kill or disconnect) on that first container. -/
theorem claim_C5 (cp : ControlPlane) (psOut : String) (hd : DockerContainer)
    (tl : List DockerContainer) (dbId leaderId nodeId : Nat)
    (h1 : get_db_id cp = .ok dbId)
    (h2 : get_int (cp.leaderOut dbId) = .ok leaderId)
    (h3 : get_int (cp.nodeOut leaderId) = .ok nodeId)
    (h4 : ¬ ((pySplitlines (cp.addrOut nodeId)).length = 3 ∧
      strContains ((pySplitlines (cp.addrOut nodeId)).getD 2 "") "(some =" = true))
    (h5 : list_containers psOut = .ok (hd :: tl)) :
    get_leader_info cp (hd :: tl) = .ok ⟨nodeId, "", hd.id⟩
    ∧ (∀ c : DockerContainer, strContains c.name "" = true)
    ∧ fail_leader cp (hd :: tl) "kill" = (.ok hd.id, [.kill hd.id])
    ∧ fail_leader cp (hd :: tl) "disconnect" =
        (.ok hd.id, [.disconnect hd.id]) := by
  have hinfo : get_leader_info cp (hd :: tl) = .ok ⟨nodeId, "", hd.id⟩ := by
    simp [get_leader_info, h1, h2, h3, computeHostname_not3 _ h4,
      findContainerId_empty]
  have hne : hd.id ≠ "" :=
    parseContainers_id_ne (pySplitlines psOut) (hd :: tl) h5 hd (by simp)
  refine ⟨hinfo, fun c => strContains_empty c.name, ?_, ?_⟩
  · simp [fail_leader, hinfo, hne]
  · simp [fail_leader, hinfo, hne]

theorem claim_C5_witness :
    fail_leader cpLeader2 [⟨"c1", "node1"⟩, ⟨"c2", "node2"⟩] "kill" =
      (.ok "c1", [.kill "c1"]) :=
  (claim_C5 cpLeader2 "c1 node1\nc2 node2" ⟨"c1", "node1"⟩ [⟨"c2", "node2"⟩]
    5 7 2 rfl rfl rfl (by decide) (by decide)).2.2.1

/-- C8: given a resolved leader, `fail_leader` (1) raises `ValueError`
("Could not find leader container") when the resolved container id is
empty, performing no Docker operation, (2) raises `ValueError`
("Unknown action: ...") for an action that is neither "kill" nor
"disconnect", again performing no Docker operation, and (3, 4) on
success performs exactly the one named destructive operation on the
leader's container and returns that container id. -/
theorem claim_C8 (cp : ControlPlane) (cs : List DockerContainer)
    (info : LeaderInfo) (action : String)
    (hinfo : get_leader_info cp cs = .ok info) :
    (info.container_id = "" →
      fail_leader cp cs action =
        (.error (.valueError "Could not find leader container"), []))
    ∧ (info.container_id ≠ "" → action ≠ "kill" → action ≠ "disconnect" →
        fail_leader cp cs action =
          (.error (.valueError (String.append "Unknown action: " action)), []))
    ∧ (info.container_id ≠ "" →
        fail_leader cp cs "kill" =
          (.ok info.container_id, [.kill info.container_id]))
    ∧ (info.container_id ≠ "" →
        fail_leader cp cs "disconnect" =
          (.ok info.container_id, [.disconnect info.container_id])) := by
  refine ⟨?_, ?_, ?_, ?_⟩
  · intro hempty
    simp [fail_leader, hinfo, hempty]
  · intro hne hk hdc
    simp [fail_leader, hinfo, hne, hk, hdc]
  · intro hne
    simp [fail_leader, hinfo, hne]
  · intro hne
    simp [fail_leader, hinfo, hne]

/-- A control plane resolving database 5, leader replica 1, node 2, with
a 3-line address output naming host `node2`. -/
def cpFull : ControlPlane :=
  { dbIdOut := " id \n----\n 5 ",
    replicasOut := fun _ => " id | node_id \n---------\n 1 | 4 \n 2 | 7 ",
    leaderOut := fun _ => " leader \n--------\n 1 ",
    nodeOut := fun _ => " node_id \n---------\n 2 ",
    addrOut := fun _ => " network_addr \n--------\n (some = \"node2:3000\") " }

theorem claim_C8_witness :
    fail_leader cpFull [⟨"c9", "spacetime_node2_1"⟩] "kill" =
      (.ok "c9", [.kill "c9"]) :=
  (claim_C8 cpFull [⟨"c9", "spacetime_node2_1"⟩] ⟨2, "node2", "c9"⟩ "kill"
    (by decide)).2.2.1 (by decide)

/-! ## Replica-row parsing lemmas -/

/-- A successfully parsed replica row comes from a line that splits on
`'|'` into exactly two string cells, with the row's fields the integer
coercions of those cells. -/
theorem parseReplicaLine_ok (line : String) (r : Replica)
    (h : parseReplicaLine line = .ok r) :
    (pySplitChar line '|').length = 2
    ∧ pyInt ((pySplitChar line '|').getD 0 "") = some r.replica_id
    ∧ pyInt ((pySplitChar line '|').getD 1 "") = some r.node_id := by
  unfold parseReplicaLine at h
  rcases hsp : pySplitChar line '|' with _ | ⟨a, _ | ⟨b, _ | _⟩⟩ <;>
    rw [hsp] at h
  · simp at h
  · simp at h
  · simp only at h
    rcases hx : pyInt a with _ | x <;> rw [hx] at h
    · simp at h
    · rcases hy : pyInt b with _ | y <;> rw [hy] at h
      · simp at h
      · simp only [Except.ok.injEq] at h
        subst h
        exact ⟨rfl, by simpa using hx, by simpa using hy⟩
  · simp at h

/-- A successful `parseReplicaLines` run yields exactly one row per input
line, each row parsed from the line at its own index. -/
theorem parseReplicaLines_struct :
    ∀ (ls : List String) (rows : List Replica),
    parseReplicaLines ls = .ok rows →
    rows.length = ls.length
    ∧ ∀ k, k < ls.length →
        parseReplicaLine (ls.getD k "") = .ok (rows.getD k ⟨0, 0⟩) := by
  intro ls
  induction ls with
  | nil =>
    intro rows h
    simp only [parseReplicaLines, Except.ok.injEq] at h
    subst h
    exact ⟨rfl, fun k hk => absurd hk (by simp)⟩
  | cons line rest ih =>
    intro rows h
    rw [parseReplicaLines] at h
    rcases hline : parseReplicaLine line with e | r <;> rw [hline] at h
    · simp at h
    · rcases hrest : parseReplicaLines rest with e | rs <;> rw [hrest] at h
      · simp at h
      · simp only [Except.ok.injEq] at h
        subst h
        obtain ⟨hlen, hat⟩ := ih rs hrest
        refine ⟨by simpa using hlen, fun k hk => ?_⟩
        cases k with
        | zero => simpa using hline
        | succ k => simpa using hat k (by simpa using hk)

/-- C10: whenever `get_all_replicas` returns rows, there is exactly one
row per line after the second line of the replica query output (the first
two lines being header and separator); each row comes from splitting its
line on `'|'` into exactly the two cells replica id and node id — string
cells handed back by the control-plane read, which `get_all_replicas`
itself (the client's caller) coerces to integers. -/
theorem claim_C10 (cp : ControlPlane) (dbId : Nat) (rows : List Replica)
    (h1 : get_db_id cp = .ok dbId) (h2 : get_all_replicas cp = .ok rows) :
    rows.length = ((pySplitlines (cp.replicasOut dbId)).drop 2).length
    ∧ ∀ k, k < rows.length →
        (pySplitChar (((pySplitlines (cp.replicasOut dbId)).drop 2).getD k "")
          '|').length = 2
        ∧ pyInt ((pySplitChar
            (((pySplitlines (cp.replicasOut dbId)).drop 2).getD k "") '|').getD
              0 "") = some ((rows.getD k ⟨0, 0⟩).replica_id)
        ∧ pyInt ((pySplitChar
            (((pySplitlines (cp.replicasOut dbId)).drop 2).getD k "") '|').getD
              1 "") = some ((rows.getD k ⟨0, 0⟩).node_id) := by
  rw [get_all_replicas, h1] at h2
  obtain ⟨hlen, hat⟩ := parseReplicaLines_struct _ rows h2
  exact ⟨hlen, fun k hk =>
    parseReplicaLine_ok _ _ (hat k (by omega))⟩

theorem claim_C10_witness :
    ([⟨1, 4⟩, ⟨2, 7⟩] : List Replica).length =
      ((pySplitlines (cpFull.replicasOut 5)).drop 2).length
    ∧ pyInt ((pySplitChar
        (((pySplitlines (cpFull.replicasOut 5)).drop 2).getD 0 "") '|').getD
          0 "") = some 1 :=
  ⟨(claim_C10 cpFull 5 [⟨1, 4⟩, ⟨2, 7⟩] (by decide) (by decide)).1,
   ((claim_C10 cpFull 5 [⟨1, 4⟩, ⟨2, 7⟩] (by decide) (by decide)).2 0
     (by decide)).2.1⟩

/-- C1 (the code's raise path is a slip): with an `id` of 7 and a counter
read whose output does not contain "7" after the retried write,
`ensure_leader_health` does raise — but the raised error is
`NameError: name 'rnd' is not defined`, produced while evaluating the
f-string of the intended `ValueError`, not a `ValueError`-class error
carrying the missing id as the claim states; no `ValueError` with any
message can be the result.  When the read output does contain "7" the
call returns normally. -/
theorem claim_C1 :
    ensure_leader_health (fun _ => .ok ()) 7 " id \n----\n" =
      .error (.nameError "rnd")
    ∧ (∀ msg : String,
        (Except.error (PyError.nameError "rnd") : Except PyError Unit) ≠
          .error (.valueError msg))
    ∧ ensure_leader_health (fun _ => .ok ()) 7 " id \n----\n 7 " = .ok () :=
  ⟨by decide, fun msg h => by simp at h, by decide⟩
